import Mathlib

/-!
Verification of the notes CRUD service (app/crud.py, app/routes.py,
app/main.py, app/models.py, app/schemas.py) against its specification.

Shallow embedding conventions:
* The relational store is a `Store`: the list of persisted rows plus the
  monotone id counter the persistence gateway uses to assign fresh primary
  keys (SQLite primary-key assignment, per the data-model contract that ids
  are store-assigned and never reused).
* Timestamps (`datetime` values) are integers: only their ordering and
  equality matter to the verified properties.  Python `datetime` objects are
  always truthy, so `x or y` on an optional datetime is `Option.getD`.
* `json.loads` and `datetime.fromisoformat` are external collaborators; they
  are passed in as explicit function parameters (`jl`, `fi`).  A parsed JSON
  document is a `JsonV` value.
* Request bodies are modelled post-byte-decoding; the import blob is
  represented by its newline split (Python `body.split(b"\n")`), with
  `blobBytes` recovering the byte length of the joined body.
-/

namespace NotesApp

/-- A persisted note row (app/models.py, class Note). -/
structure Note where
  id : Nat
  title : String
  content : String
  tags : List String
  created_at : Int
  updated_at : Int
deriving DecidableEq, Repr

/-- The relational store: persisted rows plus the gateway's fresh-id counter. -/
structure Store where
  notes : List Note
  nextId : Nat
deriving DecidableEq, Repr

/-- Python `s or default` on a string (empty string is falsy). -/
def pyStrOr (s d : String) : String := if s = "" then d else s

/-- Python `l or default` on a list (empty list is falsy). -/
def pyListOr (l d : List String) : List String := if l = [] then d else l

/-- Python `tags or []` where `tags : Optional[List[str]]`. -/
def pyOptListOr (t : Option (List String)) : List String :=
  match t with
  | none => []
  | some l => pyListOr l []

/-- app/crud.py `create_note`: builds a row with `content or ""` and
`tags or []`; the store assigns the fresh id and sets both timestamp
columns to now (server_default func.now() on both columns). -/
def create_note (s : Store) (title : String) (content : String)
    (tags : Option (List String)) (now : Int) : Note × Store :=
  let note : Note :=
    { id := s.nextId
      title := title
      content := pyStrOr content ""
      tags := pyOptListOr tags
      created_at := now
      updated_at := now }
  (note, { notes := s.notes ++ [note], nextId := s.nextId + 1 })

/-- The SQL ordering key of app/crud.py `list_notes` / `iter_all_notes`:
ORDER BY created_at DESC, id DESC.  `noteLE a b` holds when `a` may appear
(weakly) before `b` in the query result. -/
def noteLE (a b : Note) : Prop :=
  b.created_at < a.created_at ∨ (a.created_at = b.created_at ∧ b.id ≤ a.id)

instance (a b : Note) : Decidable (noteLE a b) := by
  unfold noteLE; infer_instance

/-- Insert a note into a list that is already ordered by the query key. -/
def insertNote (n : Note) : List Note → List Note
  | [] => [n]
  | m :: ms => if noteLE n m then n :: m :: ms else m :: insertNote n ms

/-- Order a list of rows by the query key (the relational engine's ORDER BY). -/
def sortNotes : List Note → List Note
  | [] => []
  | n :: ns => insertNote n (sortNotes ns)

/-- app/crud.py `list_notes`: all rows ordered by created_at desc, id desc. -/
def list_notes (s : Store) : List Note := sortNotes s.notes

/-- app/crud.py `iter_all_notes`: the identical ordered scan, yielded lazily. -/
def iter_all_notes (s : Store) : List Note := sortNotes s.notes

/-- app/crud.py `get_note`: primary-key lookup (db.get). -/
def get_note (s : Store) (note_id : Nat) : Option Note :=
  s.notes.find? (fun n => n.id == note_id)

/-- The row produced by app/crud.py `update_note` on a found note: each
supplied field replaces the prior value, omitted fields are untouched, and
`updated_at` is set to now. -/
def applyUpdate (note : Note) (title content : Option String)
    (tags : Option (List String)) (now : Int) : Note :=
  { note with
    title := title.getD note.title
    content := content.getD note.content
    tags := tags.getD note.tags
    updated_at := now }

/-- Replace the (unique, by primary key) row with the given id. -/
def replaceById (note_id : Nat) (n' : Note) : List Note → List Note
  | [] => []
  | m :: ms => if m.id == note_id then n' :: ms else m :: replaceById note_id n' ms

/-- app/crud.py `update_note`: None when the id is missing, otherwise the
mutated row is written back and returned. -/
def update_note (s : Store) (note_id : Nat) (title content : Option String)
    (tags : Option (List String)) (now : Int) : Option Note × Store :=
  match s.notes.find? (fun n => n.id == note_id) with
  | none => (none, s)
  | some note =>
      let note' := applyUpdate note title content tags now
      (some note', { s with notes := replaceById note_id note' s.notes })

/-- app/crud.py `delete_note`: False when the id is missing, otherwise the
row is removed and True returned; never an error. -/
def delete_note (s : Store) (note_id : Nat) : Bool × Store :=
  match s.notes.find? (fun n => n.id == note_id) with
  | none => (false, s)
  | some _ => (true, { s with notes := s.notes.eraseP (fun n => n.id == note_id) })

/-- app/routes.py `delete_note_endpoint`: always responds 204, whatever
`delete_note` returned. -/
def delete_note_endpoint (s : Store) (note_id : Nat) : Nat × Store :=
  let r := delete_note s note_id
  (204, r.2)

/-- A JSON value as returned by the `json.loads` collaborator. -/
inductive JsonV where
  | null
  | bool (b : Bool)
  | num (n : Int)
  | str (s : String)
  | arr (xs : List JsonV)
  | obj (kvs : List (String × JsonV))

/-- Does `s` end with the suffix `suf` (Python str.endswith)? -/
def strEndsWith (s suf : String) : Bool := suf.data.isSuffixOf s.data

/-- Does `s` start with `pre` (Python bytes.startswith)? -/
def strStartsWith (s pre : String) : Bool := pre.data.isPrefixOf s.data

/-- Python `v[:-1]`: the string without its last character. -/
def pyDropLast (s : String) : String := ⟨s.data.dropLast⟩

/-- Python `bytes.strip()`: remove leading and trailing ASCII whitespace
(space, tab, newline, carriage return, vertical tab, form feed). -/
def pyStrip (s : String) : String :=
  let ws : List Char := [' ', '\t', '\n', '\r', Char.ofNat 11, Char.ofNat 12]
  ⟨((s.data.dropWhile (fun c => c ∈ ws)).reverse.dropWhile (fun c => c ∈ ws)).reverse⟩

/-- Python `dict.get(k)`: the value bound to the key, None when absent.
The object models a parsed Python dict, so keys are distinct. -/
def dictGet (kvs : List (String × JsonV)) (k : String) : Option JsonV :=
  (kvs.find? (fun p => p.1 == k)).map (fun p => p.2)

/-- app/routes.py `_parse_dt` normalization: a trailing "Z" is replaced by
an explicit "+00:00" UTC offset (v[:-1] + "+00:00"). -/
def normalizeZ (s : String) : String :=
  if strEndsWith s "Z" then pyDropLast s ++ "+00:00" else s

/-- app/routes.py `_parse_dt`: None (absent key or JSON null) passes through;
a non-string is invalid; a string is normalized then handed to the
`datetime.fromisoformat` collaborator `fi`, parse failure being invalid.
On failure the offending field name is returned. -/
def parseDT (fi : String → Option Int) (field : String) :
    Option JsonV → Except String (Option Int)
  | none => .ok none
  | some .null => .ok none
  | some (.str s) =>
      match fi (normalizeZ s) with
      | some d => .ok (some d)
      | none => .error field
  | some _ => .error field

/-- A fully validated import record, timestamps resolved. -/
structure ImportItem where
  title : String
  content : String
  tags : List String
  created_at : Int
  updated_at : Int
deriving DecidableEq, Repr

/-- Outcome of validating one import line (independent of its position;
the line number only enters the error message). -/
inductive LineResult where
  | skip
  | crash (msg : String)
  | bad (field : String)
  | good (item : ImportItem)
deriving DecidableEq, Repr

/-- Extract the strings of a JSON array all of whose elements are strings. -/
def allStrings : List JsonV → Option (List String)
  | [] => some []
  | .str s :: xs => (allStrings xs).map (fun l => s :: l)
  | _ :: _ => none

/-- Field validation of one parsed import object, in source order: title
(required string of 1..100 chars), content (string, default ""), tags (list
of strings, default []), then the two timestamps; `created_at` defaults to
now and `updated_at` to the resolved `created_at` (app/routes.py,
import_notes_endpoint loop body). -/
def checkRecord (fi : String → Option Int) (now : Int)
    (kvs : List (String × JsonV)) : LineResult :=
  match dictGet kvs "title" with
  | some (.str t) =>
      if 1 ≤ t.length ∧ t.length ≤ 100 then
        match (dictGet kvs "content").getD (.str "") with
        | .str c =>
            match (dictGet kvs "tags").getD (.arr []) with
            | .arr xs =>
                match allStrings xs with
                | some tags =>
                    match parseDT fi "created_at" (dictGet kvs "created_at") with
                    | .error f => .bad f
                    | .ok copt =>
                        match parseDT fi "updated_at" (dictGet kvs "updated_at") with
                        | .error f => .bad f
                        | .ok uopt =>
                            let c0 := copt.getD now
                            .good ⟨t, c, tags, c0, uopt.getD c0⟩
                | none => .bad "tags"
            | _ => .bad "tags"
        | _ => .bad "content"
      else .bad "title"
  | _ => .bad "title"

/-- Validation of one raw import line: empty lines are skipped, then the
stripped line is skipped when blank or a "#" comment, otherwise handed to
the `json.loads` collaborator `jl`; a parse failure is the "JSON" error, a
parsed non-object crashes (Python calls `.get` on the value, raising an
uncaught AttributeError), an object is field-checked. -/
def checkLine (jl : String → Option JsonV) (fi : String → Option Int)
    (now : Int) (raw : String) : LineResult :=
  if raw = "" then .skip
  else
    let line := pyStrip raw
    if line = "" ∨ strStartsWith line "#" then .skip
    else
      match jl line with
      | none => .bad "JSON"
      | some (.obj kvs) => checkRecord fi now kvs
      | some _ => .crash "AttributeError"

/-- An error escaping the import loop: an HTTPException (status, detail) or
an uncaught Python exception. -/
inductive ImpErr where
  | http (status : Nat) (detail : String)
  | crash (msg : String)
deriving DecidableEq, Repr

/-- Import byte ceiling (app/routes.py MAX_BYTES). -/
def MAX_BYTES : Nat := 10 * 1024 * 1024

/-- Import line ceiling (app/routes.py MAX_LINES). -/
def MAX_LINES : Nat := 10000

/-- The import validation loop (app/routes.py): lines are scanned in order
with 1-based index `idx`; each iteration first rejects when `idx` exceeds
the line ceiling, then validates the line, accumulating the items of valid
record lines. -/
def processLines (jl : String → Option JsonV) (fi : String → Option Int)
    (now : Int) : Nat → List String → Except ImpErr (List ImportItem)
  | _, [] => .ok []
  | idx, raw :: rest =>
      if idx > MAX_LINES then .error (.http 400 "too many lines (max 10000)")
      else
        match checkLine jl fi now raw with
        | .crash m => .error (.crash m)
        | .bad f => .error (.http 400 ("invalid " ++ f ++ " on line " ++ toString idx))
        | .skip => processLines jl fi now (idx + 1) rest
        | .good it => (processLines jl fi now (idx + 1) rest).map (fun l => it :: l)

/-- Assign store ids to a batch of rows, in order, starting at the counter. -/
def assignIds (base : Nat) : List ImportItem → List Note
  | [] => []
  | it :: its =>
      { id := base, title := it.title, content := it.content, tags := it.tags,
        created_at := it.created_at, updated_at := it.updated_at }
        :: assignIds (base + 1) its

/-- app/crud.py `bulk_insert_notes`: one transactional batch insert of all
items (ids assigned by the store); returns the inserted count. -/
def bulk_insert_notes (s : Store) (items : List ImportItem) : Nat × Store :=
  (items.length,
   { notes := s.notes ++ assignIds s.nextId items,
     nextId := s.nextId + items.length })

/-- Byte length of the request body whose newline split is `lines`
(each separator byte counts once). -/
def blobBytes (lines : List String) : Nat :=
  (lines.map String.utf8ByteSize).sum + (lines.length - 1)

/-- Observable outcome of the import endpoint. -/
inductive ImportOutcome where
  | ok (inserted : Nat)
  | httpError (status : Nat) (detail : String)
  | crash (msg : String)
deriving DecidableEq, Repr

/-- app/routes.py `import_notes_endpoint`: byte-ceiling check on the raw
body, then the validation scan over the newline split, then the
transactional batch insert; any error leaves the store untouched. -/
def import_notes_endpoint (jl : String → Option JsonV) (fi : String → Option Int)
    (now : Int) (lines : List String) (s : Store) : ImportOutcome × Store :=
  if blobBytes lines > MAX_BYTES then
    (.httpError 400 "payload too large (max 10MB)", s)
  else
    match processLines jl fi now 1 lines with
    | .error (.http c d) => (.httpError c d, s)
    | .error (.crash m) => (.crash m, s)
    | .ok items =>
        let r := bulk_insert_notes s items
        (.ok r.1, r.2)

/-- The create request body (app/schemas.py NoteCreate): `none` models a
field absent from the JSON body, resolved by the pydantic defaults. -/
structure NoteCreate where
  title : String
  content : Option String
  tags : Option (List String)

/-- app/routes.py `create_note_endpoint`: pydantic fills the defaults
(content "", tags []), the route passes `payload.content or ""`, and
crud applies its own `or` defaults again. -/
def create_note_endpoint (s : Store) (pl : NoteCreate) (now : Int) : Note × Store :=
  create_note s pl.title (pyStrOr (pl.content.getD "") "") (some (pl.tags.getD [])) now

/-- A field of a PATCH JSON body: absent, explicit null, or a value. -/
inductive JField (α : Type) where
  | absent
  | null
  | val (a : α)
deriving DecidableEq

/-- Pydantic's reading of an optional field (app/schemas.py NoteUpdate):
both an absent field and an explicit null become None. -/
def pydOpt {α : Type} : JField α → Option α
  | .absent => none
  | .null => none
  | .val a => some a

/-- app/routes.py `patch_note_endpoint`: update, 404 when the id is
missing, otherwise 200 with the updated row. -/
def patch_note_endpoint (s : Store) (note_id : Nat) (jt jc : JField String)
    (jtg : JField (List String)) (now : Int) : (Nat × Option Note) × Store :=
  let r := update_note s note_id (pydOpt jt) (pydOpt jc) (pydOpt jtg) now
  match r.1 with
  | none => ((404, none), r.2)
  | some n => ((200, some n), r.2)

/-- The machine codes declared by the app's own ErrorResponse schema
(app/schemas.py, the Literal type of `code`). -/
def allowedCodes : List String :=
  ["not_found", "validation_error", "bad_request", "conflict", "internal_error"]

/-- Python `http.HTTPStatus(c).phrase` for the status codes this app can
produce (stdlib collaborator). -/
def httpStatusPhrase (c : Nat) : Option String :=
  if c = 400 then some "Bad Request"
  else if c = 404 then some "Not Found"
  else if c = 409 then some "Conflict"
  else if c = 422 then some "Unprocessable Entity"
  else if c = 500 then some "Internal Server Error"
  else if c = 503 then some "Service Unavailable"
  else none

/-- app/main.py `_status_code_to_machine_code`: 404 maps to "not_found";
otherwise the lower-cased HTTP phrase with spaces turned into hyphens;
"error" when the status is unknown. -/
def statusCodeToMachineCode (c : Nat) : String :=
  if c = 404 then "not_found"
  else
    match httpStatusPhrase c with
    | some phrase =>
        ⟨(phrase.data.map Char.toLower).map (fun ch => if ch = ' ' then '-' else ch)⟩
    | none => "error"

/-- app/main.py `http_exception_handler`: every HTTPException becomes a
JSON body with the detail message and the machine code. -/
def http_exception_handler (status : Nat) (detail : String) : Nat × JsonV :=
  (status, .obj [("detail", .str detail), ("code", .str (statusCodeToMachineCode status))])

/-- app/main.py `ready`: 200 when the store answers, otherwise a 503 body
with a hard-coded code string. -/
def ready (dbReady : Bool) : Nat × JsonV :=
  if dbReady then (200, .obj [("status", .str "ready")])
  else (503, .obj [("detail", .str "database unavailable"),
                   ("code", .str "service-unavailable")])

/-- Serialization of one exported note (app/routes.py
`export_notes_endpoint.line_iter`): a JSON object with exactly the six
fields, timestamps rendered by the `isoformat` collaborator `iso`. -/
def noteToJson (iso : Int → String) (n : Note) : JsonV :=
  .obj [("id", .num n.id),
        ("title", .str n.title),
        ("content", .str n.content),
        ("tags", .arr (n.tags.map JsonV.str)),
        ("created_at", .str (iso n.created_at)),
        ("updated_at", .str (iso n.updated_at))]

/-- app/routes.py `export_notes_endpoint`: one serialized object per
yielded line, over the ordered scan. -/
def export_notes_endpoint (iso : Int → String) (s : Store) : List JsonV :=
  (iter_all_notes s).map (noteToJson iso)

/-- The keys of a serialized JSON object, in order. -/
def jsonKeys : JsonV → List String
  | .obj kvs => kvs.map (fun p => p.1)
  | _ => []

theorem noteLE_total (a b : Note) : noteLE a b ∨ noteLE b a := by
  unfold noteLE
  omega

theorem noteLE_trans {a b c : Note} (h1 : noteLE a b) (h2 : noteLE b c) : noteLE a c := by
  unfold noteLE at h1 h2 ⊢
  omega

theorem insertNote_perm (n : Note) (l : List Note) : (insertNote n l).Perm (n :: l) := by
  induction l with
  | nil => exact List.Perm.refl _
  | cons m ms ih =>
      unfold insertNote
      by_cases h : noteLE n m
      · rw [if_pos h]
      · rw [if_neg h]
        exact (ih.cons m).trans (List.Perm.swap n m ms)

theorem mem_insertNote {x n : Note} {l : List Note} :
    x ∈ insertNote n l ↔ x = n ∨ x ∈ l := by
  rw [(insertNote_perm n l).mem_iff]
  simp

theorem insertNote_pairwise {n : Note} {l : List Note} (h : l.Pairwise noteLE) :
    (insertNote n l).Pairwise noteLE := by
  induction l with
  | nil => simp [insertNote]
  | cons m ms ih =>
      rw [List.pairwise_cons] at h
      unfold insertNote
      by_cases hnm : noteLE n m
      · rw [if_pos hnm, List.pairwise_cons]
        refine ⟨?_, List.pairwise_cons.mpr h⟩
        intro x hx
        rcases List.mem_cons.mp hx with rfl | hx'
        · exact hnm
        · exact noteLE_trans hnm (h.1 x hx')
      · rw [if_neg hnm, List.pairwise_cons]
        refine ⟨?_, ih h.2⟩
        intro x hx
        rcases mem_insertNote.mp hx with rfl | hx'
        · exact (noteLE_total x m).resolve_left hnm
        · exact h.1 x hx'

theorem sortNotes_perm (l : List Note) : (sortNotes l).Perm l := by
  induction l with
  | nil => exact List.Perm.refl _
  | cons n ns ih =>
      unfold sortNotes
      exact (insertNote_perm n (sortNotes ns)).trans (ih.cons n)

theorem sortNotes_pairwise (l : List Note) : (sortNotes l).Pairwise noteLE := by
  induction l with
  | nil => simp [sortNotes]
  | cons n ns ih =>
      unfold sortNotes
      exact insertNote_pairwise ih

/-- C1: for every store whose rows carry distinct primary keys, `list_notes`
returns all the stored notes (a permutation of the rows) and any two
adjacent returned notes satisfy the strict ordering key: either the first
has a strictly later created_at, or the timestamps are equal and the first
has the strictly larger id. -/
theorem list_notes_ordered (s : Store)
    (hids : s.notes.Pairwise (fun a b => a.id ≠ b.id)) :
    (list_notes s).Perm s.notes ∧
    (list_notes s).Chain' (fun a b =>
      b.created_at < a.created_at ∨ (a.created_at = b.created_at ∧ b.id < a.id)) := by
  have hperm : (list_notes s).Perm s.notes := sortNotes_perm s.notes
  refine ⟨hperm, ?_⟩
  have hne : (list_notes s).Pairwise (fun a b => a.id ≠ b.id) :=
    (List.Perm.pairwise_iff (by intro a b hab; exact Ne.symm hab) hperm).mpr hids
  have hsorted : (list_notes s).Pairwise noteLE := sortNotes_pairwise s.notes
  refine (hsorted.and hne).chain'.imp ?_
  intro a b hab
  rcases hab with ⟨h1, h2⟩
  unfold noteLE at h1
  omega

/-- Concrete three-note store with a created_at tie, used by witnesses. -/
def wStore : Store :=
  { notes :=
      [ { id := 1, title := "a", content := "", tags := [], created_at := 5, updated_at := 5 },
        { id := 2, title := "b", content := "x", tags := ["t"], created_at := 7, updated_at := 7 },
        { id := 3, title := "c", content := "", tags := [], created_at := 7, updated_at := 8 } ],
    nextId := 4 }

/-- Witness for C1 at a concrete store containing a created_at tie. -/
theorem list_notes_ordered_witness :
    wStore.notes.Pairwise (fun a b => a.id ≠ b.id) ∧
    ((list_notes wStore).Perm wStore.notes ∧
     (list_notes wStore).Chain' (fun a b =>
       b.created_at < a.created_at ∨ (a.created_at = b.created_at ∧ b.id < a.id))) :=
  ⟨by decide, list_notes_ordered wStore (by decide)⟩

theorem find?_eraseP_self (note_id : Nat) (l : List Note)
    (h : l.Pairwise (fun a b => a.id ≠ b.id)) :
    (l.eraseP (fun n => n.id == note_id)).find? (fun n => n.id == note_id) = none := by
  induction l with
  | nil => rfl
  | cons m ms ih =>
      rw [List.pairwise_cons] at h
      by_cases hm : m.id = note_id
      · rw [List.eraseP_cons_of_pos (by simpa using hm)]
        rw [List.find?_eq_none]
        intro x hx
        have hne := h.1 x hx
        simp only [beq_iff_eq]
        omega
      · rw [List.eraseP_cons_of_neg (by simpa using hm)]
        rw [List.find?_cons_of_neg _ (by simpa using hm)]
        exact ih h.2

theorem get_note_delete (s : Store) (note_id : Nat)
    (hids : s.notes.Pairwise (fun a b => a.id ≠ b.id)) :
    get_note (delete_note s note_id).2 note_id = none := by
  cases hfind : s.notes.find? (fun n => n.id == note_id) with
  | none => simp [delete_note, hfind, get_note]
  | some m => simp [delete_note, hfind, get_note, find?_eraseP_self note_id s.notes hids]

theorem delete_note_missing (s : Store) (note_id : Nat)
    (h : s.notes.find? (fun n => n.id == note_id) = none) :
    delete_note s note_id = (false, s) := by
  unfold delete_note
  rw [h]

/-- C3: delete is idempotent: for every id, present or absent, two
consecutive DELETE calls on a store with distinct primary keys both respond
204, and a get after either call returns the not-found signal. -/
theorem delete_idempotent (s : Store) (note_id : Nat)
    (hids : s.notes.Pairwise (fun a b => a.id ≠ b.id)) :
    (delete_note_endpoint s note_id).1 = 204 ∧
    (delete_note_endpoint (delete_note_endpoint s note_id).2 note_id).1 = 204 ∧
    get_note (delete_note_endpoint s note_id).2 note_id = none ∧
    get_note (delete_note_endpoint (delete_note_endpoint s note_id).2 note_id).2 note_id = none := by
  have h1 : get_note (delete_note s note_id).2 note_id = none :=
    get_note_delete s note_id hids
  have h1' : ((delete_note s note_id).2).notes.find? (fun n => n.id == note_id) = none := by
    simpa [get_note] using h1
  have h2 : (delete_note ((delete_note s note_id).2) note_id).2 = (delete_note s note_id).2 := by
    rw [delete_note_missing _ note_id h1']
  refine ⟨rfl, rfl, h1, ?_⟩
  show get_note (delete_note ((delete_note s note_id).2) note_id).2 note_id = none
  rw [h2]
  exact h1

/-- Witness for C3: deleting id 2 of the concrete store twice. -/
theorem delete_idempotent_witness :
    wStore.notes.Pairwise (fun a b => a.id ≠ b.id) ∧
    ((delete_note_endpoint wStore 2).1 = 204 ∧
     (delete_note_endpoint (delete_note_endpoint wStore 2).2 2).1 = 204 ∧
     get_note (delete_note_endpoint wStore 2).2 2 = none ∧
     get_note (delete_note_endpoint (delete_note_endpoint wStore 2).2 2).2 2 = none) :=
  ⟨by decide, delete_idempotent wStore 2 (by decide)⟩

theorem find?_replaceById (note_id : Nat) (n' : Note) (hid : n'.id = note_id) :
    ∀ (l : List Note) (note : Note),
      l.find? (fun n => n.id == note_id) = some note →
      (replaceById note_id n' l).find? (fun n => n.id == note_id) = some n' := by
  intro l
  induction l with
  | nil => intro note h; simp at h
  | cons m ms ih =>
      intro note h
      by_cases hm : m.id = note_id
      · unfold replaceById
        rw [if_pos (by simpa using hm)]
        rw [List.find?_cons_of_pos _ (by simpa using hid)]
      · unfold replaceById
        rw [if_neg (by simpa using hm)]
        rw [List.find?_cons_of_neg _ (by simpa using hm)]
        rw [List.find?_cons_of_neg _ (by simpa using hm)] at h
        exact ih note h

/-- C5: updating an existing note leaves every omitted field byte-identical
to its prior value, leaves id and created_at untouched, strictly increases
updated_at (the new clock reading being later than the stored one), and a
supplied tags value replaces the whole prior list; the updated row is both
returned and stored. -/
theorem update_one_field_frame (s : Store) (note_id : Nat)
    (t c : Option String) (tg : Option (List String)) (now : Int) (note : Note)
    (hfind : s.notes.find? (fun n => n.id == note_id) = some note)
    (hnow : note.updated_at < now) :
    (update_note s note_id t c tg now).1 = some (applyUpdate note t c tg now) ∧
    get_note (update_note s note_id t c tg now).2 note_id = some (applyUpdate note t c tg now) ∧
    (t = none → (applyUpdate note t c tg now).title = note.title) ∧
    (c = none → (applyUpdate note t c tg now).content = note.content) ∧
    (tg = none → (applyUpdate note t c tg now).tags = note.tags) ∧
    (applyUpdate note t c tg now).id = note.id ∧
    (applyUpdate note t c tg now).created_at = note.created_at ∧
    note.updated_at < (applyUpdate note t c tg now).updated_at ∧
    (∀ ts, tg = some ts → (applyUpdate note t c tg now).tags = ts) := by
  have hnoteid : note.id = note_id := by
    simpa using List.find?_some hfind
  have hid' : (applyUpdate note t c tg now).id = note_id := by
    simpa [applyUpdate] using hnoteid
  refine ⟨?_, ?_, ?_, ?_, ?_, ?_, ?_, ?_, ?_⟩
  · simp [update_note, hfind]
  · simp only [update_note, hfind, get_note]
    exact find?_replaceById note_id _ hid' s.notes note hfind
  · intro h; subst h; simp [applyUpdate]
  · intro h; subst h; simp [applyUpdate]
  · intro h; subst h; simp [applyUpdate]
  · simp [applyUpdate]
  · simp [applyUpdate]
  · simpa [applyUpdate] using hnow
  · intro ts h; subst h; simp [applyUpdate]

/-- Witness for C5: supplying only the title of note 2 at a later clock. -/
theorem update_one_field_frame_witness :
    wStore.notes.find? (fun n => n.id == 2) =
      some { id := 2, title := "b", content := "x", tags := ["t"], created_at := 7, updated_at := 7 } ∧
    ((7 : Int) < 9) ∧
    ((update_note wStore 2 (some "B") none none 9).1 =
      some (applyUpdate { id := 2, title := "b", content := "x", tags := ["t"], created_at := 7, updated_at := 7 } (some "B") none none 9) ∧
     get_note (update_note wStore 2 (some "B") none none 9).2 2 =
      some (applyUpdate { id := 2, title := "b", content := "x", tags := ["t"], created_at := 7, updated_at := 7 } (some "B") none none 9) ∧
     ((some "B" : Option String) = none →
      (applyUpdate { id := 2, title := "b", content := "x", tags := ["t"], created_at := 7, updated_at := 7 } (some "B") none none 9).title = "b") ∧
     ((none : Option String) = none →
      (applyUpdate { id := 2, title := "b", content := "x", tags := ["t"], created_at := 7, updated_at := 7 } (some "B") none none 9).content = "x") ∧
     ((none : Option (List String)) = none →
      (applyUpdate { id := 2, title := "b", content := "x", tags := ["t"], created_at := 7, updated_at := 7 } (some "B") none none 9).tags = ["t"]) ∧
     (applyUpdate { id := 2, title := "b", content := "x", tags := ["t"], created_at := 7, updated_at := 7 } (some "B") none none 9).id = 2 ∧
     (applyUpdate { id := 2, title := "b", content := "x", tags := ["t"], created_at := 7, updated_at := 7 } (some "B") none none 9).created_at = 7 ∧
     (7 : Int) < (applyUpdate { id := 2, title := "b", content := "x", tags := ["t"], created_at := 7, updated_at := 7 } (some "B") none none 9).updated_at ∧
     (∀ ts, (none : Option (List String)) = some ts →
      (applyUpdate { id := 2, title := "b", content := "x", tags := ["t"], created_at := 7, updated_at := 7 } (some "B") none none 9).tags = ts)) :=
  ⟨by decide, by decide,
   update_one_field_frame wStore 2 (some "B") none none 9 _ (by decide) (by decide)⟩

/-- C9: every created note has created_at equal to updated_at and a fresh
id: the gateway counter bounds every previously assigned id, and the new
note receives the counter's value.  Absent or empty content is stored as
the empty string; absent tags as the empty list. -/
theorem create_note_defaults_fresh (s : Store) (pl : NoteCreate) (now : Int)
    (assigned : List Nat) (hassigned : ∀ i ∈ assigned, i < s.nextId) :
    (create_note_endpoint s pl now).1.created_at = (create_note_endpoint s pl now).1.updated_at ∧
    (create_note_endpoint s pl now).1.id ∉ assigned ∧
    ((pl.content = none ∨ pl.content = some "") → (create_note_endpoint s pl now).1.content = "") ∧
    (pl.tags = none → (create_note_endpoint s pl now).1.tags = []) := by
  refine ⟨rfl, ?_, ?_, ?_⟩
  · intro hmem
    have hlt := hassigned _ hmem
    simp only [create_note_endpoint, create_note] at hlt
    exact lt_irrefl _ hlt
  · intro h
    rcases h with h | h <;> simp [create_note_endpoint, create_note, pyStrOr, h]
  · intro h
    simp [create_note_endpoint, create_note, pyOptListOr, pyListOr, h]

/-- Witness for C9: creating a bare-title note over the concrete store. -/
theorem create_note_defaults_fresh_witness :
    (create_note_endpoint wStore ⟨"t", none, none⟩ 9).1.created_at =
      (create_note_endpoint wStore ⟨"t", none, none⟩ 9).1.updated_at ∧
    (create_note_endpoint wStore ⟨"t", none, none⟩ 9).1.id ∉ [1, 2, 3] ∧
    (((none : Option String) = none ∨ (none : Option String) = some "") →
      (create_note_endpoint wStore ⟨"t", none, none⟩ 9).1.content = "") ∧
    ((none : Option (List String)) = none →
      (create_note_endpoint wStore ⟨"t", none, none⟩ 9).1.tags = []) :=
  create_note_defaults_fresh wStore ⟨"t", none, none⟩ 9 [1, 2, 3] (by decide)

/-- C10: an explicit JSON null in a PATCH body is read by the schema layer
exactly as an omitted field, so the endpoint's result is identical and the
stored value of a null field is left unchanged. -/
theorem patch_null_is_omitted (s : Store) (note_id : Nat) (now : Int)
    (jt jc : JField String) (jtg : JField (List String)) (note : Note)
    (hfind : s.notes.find? (fun n => n.id == note_id) = some note) :
    patch_note_endpoint s note_id .null jc jtg now =
      patch_note_endpoint s note_id .absent jc jtg now ∧
    patch_note_endpoint s note_id jt .null jtg now =
      patch_note_endpoint s note_id jt .absent jtg now ∧
    patch_note_endpoint s note_id jt jc .null now =
      patch_note_endpoint s note_id jt jc .absent now ∧
    (patch_note_endpoint s note_id .null .null .null now).1 =
      (200, some (applyUpdate note none none none now)) ∧
    (applyUpdate note none none none now).title = note.title ∧
    (applyUpdate note none none none now).content = note.content ∧
    (applyUpdate note none none none now).tags = note.tags := by
  refine ⟨rfl, rfl, rfl, ?_, ?_, ?_, ?_⟩
  · simp [patch_note_endpoint, update_note, pydOpt, hfind]
  · simp [applyUpdate]
  · simp [applyUpdate]
  · simp [applyUpdate]

/-- Witness for C10: patching note 1 of the concrete store with nulls. -/
theorem patch_null_is_omitted_witness :
    patch_note_endpoint wStore 1 .null (.val "w") (.val ["e"]) 9 =
      patch_note_endpoint wStore 1 .absent (.val "w") (.val ["e"]) 9 ∧
    patch_note_endpoint wStore 1 (.val "q") .null (.val ["e"]) 9 =
      patch_note_endpoint wStore 1 (.val "q") .absent (.val ["e"]) 9 ∧
    patch_note_endpoint wStore 1 (.val "q") (.val "w") .null 9 =
      patch_note_endpoint wStore 1 (.val "q") (.val "w") .absent 9 ∧
    (patch_note_endpoint wStore 1 .null .null .null 9).1 =
      (200, some (applyUpdate { id := 1, title := "a", content := "", tags := [], created_at := 5, updated_at := 5 } none none none 9)) ∧
    (applyUpdate { id := 1, title := "a", content := "", tags := [], created_at := 5, updated_at := 5 } none none none 9).title = "a" ∧
    (applyUpdate { id := 1, title := "a", content := "", tags := [], created_at := 5, updated_at := 5 } none none none 9).content = "" ∧
    (applyUpdate { id := 1, title := "a", content := "", tags := [], created_at := 5, updated_at := 5 } none none none 9).tags = [] :=
  patch_null_is_omitted wStore 1 9 (.val "q") (.val "w") (.val ["e"]) _ (by decide)

/-- C7: the export stream yields exactly the notes list() returns, in the
same newest-first order, one serialized JSON object per line whose key set
is exactly id, title, content, tags, created_at, updated_at. -/
theorem export_matches_list (iso : Int → String) (s : Store) :
    export_notes_endpoint iso s = (list_notes s).map (noteToJson iso) ∧
    iter_all_notes s = list_notes s ∧
    ∀ n : Note, jsonKeys (noteToJson iso n) =
      ["id", "title", "content", "tags", "created_at", "updated_at"] :=
  ⟨rfl, rfl, fun _ => rfl⟩

/-- C4 (code bug): the machine code attached by the exception handler to a
400 response is "bad-request" — the hyphenated HTTP phrase — and the 503
readiness body carries "service-unavailable"; neither belongs to the code
set declared by the app's own ErrorResponse schema. -/
theorem error_codes_outside_declared_set :
    statusCodeToMachineCode 400 = "bad-request" ∧
    "bad-request" ∉ allowedCodes ∧
    http_exception_handler 400 "invalid JSON on line 1" =
      (400, .obj [("detail", .str "invalid JSON on line 1"), ("code", .str "bad-request")]) ∧
    ready false = (503, .obj [("detail", .str "database unavailable"),
                              ("code", .str "service-unavailable")]) ∧
    "service-unavailable" ∉ allowedCodes := by
  refine ⟨by decide, by decide, ?_, rfl, by decide⟩
  simp only [http_exception_handler]
  rw [show statusCodeToMachineCode 400 = "bad-request" from by decide]

/-- Concrete json.loads stand-in used by concrete evaluations: "123" is the
JSON number 123; anything else fails to parse. -/
def jl0 : String → Option JsonV := fun l =>
  if l = "123" then some (.num 123) else none

/-- Concrete fromisoformat stand-in recognizing one normalized stamp. -/
def fi0 : String → Option Int := fun s =>
  if s = "2024-01-01T00:00:00+00:00" then some 100 else none

/-- The empty store. -/
def store0 : Store := { notes := [], nextId := 1 }

/-- C2 (code bug): the single-line blob "123" holds valid JSON that is not
an object; it escapes the per-line validation — the code calls .get on a
non-dict and crashes with an uncaught AttributeError, an internal error
naming no line and no field — though no record is inserted. -/
theorem import_non_object_line_crashes :
    import_notes_endpoint jl0 fi0 0 ["123"] store0 = (.crash "AttributeError", store0) ∧
    (import_notes_endpoint jl0 fi0 0 ["123"] store0).2.notes.length = 0 := by
  constructor <;> decide

/-- Does the import scan end in an error whenever the line ceiling is
exceeded?  Auxiliary induction for the ceiling theorem. -/
theorem processLines_over_ceiling (jl : String → Option JsonV) (fi : String → Option Int)
    (now : Int) :
    ∀ (lines : List String) (idx : Nat), lines ≠ [] → MAX_LINES + 1 < idx + lines.length →
      ∃ e, processLines jl fi now idx lines = .error e := by
  intro lines
  induction lines with
  | nil => intro idx h _; exact absurd rfl h
  | cons r rest ih =>
      intro idx _ hlen
      by_cases hidx : idx > MAX_LINES
      · exact ⟨.http 400 "too many lines (max 10000)", by
          unfold processLines; rw [if_pos hidx]⟩
      · have hrest : rest ≠ [] := by
          intro hnil
          rw [hnil] at hlen
          simp at hlen
          omega
        have hlen' : MAX_LINES + 1 < (idx + 1) + rest.length := by
          simp at hlen
          omega
        obtain ⟨e, he⟩ := ih (idx + 1) hrest hlen'
        cases hcl : checkLine jl fi now r with
        | skip => exact ⟨e, by unfold processLines; rw [if_neg hidx, hcl]; exact he⟩
        | crash m => exact ⟨.crash m, by unfold processLines; rw [if_neg hidx, hcl]⟩
        | bad f => exact ⟨.http 400 ("invalid " ++ f ++ " on line " ++ toString idx), by
            unfold processLines; rw [if_neg hidx, hcl]⟩
        | good it => exact ⟨e, by unfold processLines; rw [if_neg hidx, hcl, he]; rfl⟩

/-- Is the import outcome a success? -/
def isOkOutcome : ImportOutcome → Bool
  | .ok _ => true
  | _ => false

/-- C6 (amended): a blob over the byte ceiling or over the line ceiling is
rejected with no records inserted; the byte ceiling alone is enforced
before any parsing (the outcome is then a fixed rejection independent of
the line contents and of the parsers), while the line ceiling is enforced
during the scan, after earlier lines have been parsed. -/
theorem import_ceiling_rejected (jl : String → Option JsonV) (fi : String → Option Int)
    (now : Int) (lines : List String) (s : Store)
    (h : blobBytes lines > MAX_BYTES ∨ lines.length > MAX_LINES) :
    (import_notes_endpoint jl fi now lines s).2 = s ∧
    isOkOutcome (import_notes_endpoint jl fi now lines s).1 = false ∧
    (blobBytes lines > MAX_BYTES →
      import_notes_endpoint jl fi now lines s =
        (.httpError 400 "payload too large (max 10MB)", s)) := by
  by_cases hb : blobBytes lines > MAX_BYTES
  · have heq : import_notes_endpoint jl fi now lines s =
        (.httpError 400 "payload too large (max 10MB)", s) := by
      unfold import_notes_endpoint
      rw [if_pos hb]
    exact ⟨by rw [heq], by rw [heq]; rfl, fun _ => heq⟩
  · have hlines : lines.length > MAX_LINES := h.resolve_left hb
    have hne : lines ≠ [] := by
      intro hnil
      rw [hnil] at hlines
      simp at hlines
    have hlen : MAX_LINES + 1 < 1 + lines.length := by omega
    obtain ⟨e, he⟩ := processLines_over_ceiling jl fi now lines 1 hne hlen
    cases e with
    | http c d =>
        have heq : import_notes_endpoint jl fi now lines s = (.httpError c d, s) := by
          unfold import_notes_endpoint
          rw [if_neg hb, he]
        exact ⟨by rw [heq], by rw [heq]; rfl, fun hb' => absurd hb' hb⟩
    | crash m =>
        have heq : import_notes_endpoint jl fi now lines s = (.crash m, s) := by
          unfold import_notes_endpoint
          rw [if_neg hb, he]
        exact ⟨by rw [heq], by rw [heq]; rfl, fun hb' => absurd hb' hb⟩

/-- Witness for the amended C6 at a 10001-line blob. -/
theorem import_ceiling_rejected_witness :
    (blobBytes (List.replicate 10001 "x") > MAX_BYTES ∨
      (List.replicate 10001 "x").length > MAX_LINES) ∧
    ((import_notes_endpoint jl0 fi0 0 (List.replicate 10001 "x") store0).2 = store0 ∧
     isOkOutcome (import_notes_endpoint jl0 fi0 0 (List.replicate 10001 "x") store0).1 = false ∧
     (blobBytes (List.replicate 10001 "x") > MAX_BYTES →
       import_notes_endpoint jl0 fi0 0 (List.replicate 10001 "x") store0 =
         (.httpError 400 "payload too large (max 10MB)", store0))) :=
  have h : (List.replicate 10001 "x").length > MAX_LINES := by
    rw [List.length_replicate]
    decide
  ⟨Or.inr h, import_ceiling_rejected jl0 fi0 0 (List.replicate 10001 "x") store0 (Or.inr h)⟩

/-- C6 counterexample: a 10001-line blob whose first line is not valid JSON
is rejected for the line-1 parse failure, not for the line ceiling — lines
are parsed before the line-count ceiling is enforced. -/
theorem import_line_ceiling_counterexample :
    (List.replicate 10001 "x").length > MAX_LINES ∧
    import_notes_endpoint jl0 fi0 0 (List.replicate 10001 "x") store0 =
      (.httpError 400 "invalid JSON on line 1", store0) ∧
    ImportOutcome.httpError 400 "invalid JSON on line 1" ≠
      ImportOutcome.httpError 400 "too many lines (max 10000)" := by
  refine ⟨by rw [List.length_replicate]; decide, ?_, by decide⟩
  have hbytes : blobBytes (List.replicate 10001 "x") = 20001 := by
    unfold blobBytes
    rw [List.map_replicate]
    rw [show String.utf8ByteSize "x" = 1 from by decide]
    rw [List.sum_replicate, List.length_replicate]
    decide
  have hrep : List.replicate 10001 "x" = "x" :: List.replicate 10000 "x" := rfl
  have hcl : checkLine jl0 fi0 0 "x" = .bad "JSON" := by decide
  have hstep : processLines jl0 fi0 0 1 ("x" :: List.replicate 10000 "x") =
      .error (.http 400 ("invalid " ++ "JSON" ++ " on line " ++ toString (1 : Nat))) := by
    unfold processLines
    rw [if_neg (by decide), hcl]
  unfold import_notes_endpoint
  rw [if_neg (by rw [hbytes]; decide)]
  rw [hrep, hstep]
  decide

/-- C8: in a valid import line a trailing-Z timestamp is rewritten to an
explicit +00:00 offset before the ISO parser runs; an absent created_at
resolves to now, and an absent updated_at to the resolved created_at —
including when created_at itself was defaulted. -/
theorem import_timestamp_defaults (fi : String → Option Int) (now d : Int)
    (st t : String) (kvs kvs2 : List (String × JsonV))
    (hz : strEndsWith st "Z" = true)
    (hfi : fi (pyDropLast st ++ "+00:00") = some d)
    (htitle : dictGet kvs "title" = some (.str t))
    (hlen : 1 ≤ t.length ∧ t.length ≤ 100)
    (hcontent : dictGet kvs "content" = none)
    (htags : dictGet kvs "tags" = none)
    (hcreated : dictGet kvs "created_at" = none)
    (hupdated : dictGet kvs "updated_at" = none)
    (htitle2 : dictGet kvs2 "title" = some (.str t))
    (hcontent2 : dictGet kvs2 "content" = none)
    (htags2 : dictGet kvs2 "tags" = none)
    (hcreated2 : dictGet kvs2 "created_at" = some (.str st))
    (hupdated2 : dictGet kvs2 "updated_at" = none) :
    normalizeZ st = pyDropLast st ++ "+00:00" ∧
    parseDT fi "created_at" (some (.str st)) = .ok (some d) ∧
    checkRecord fi now kvs = .good ⟨t, "", [], now, now⟩ ∧
    checkRecord fi now kvs2 = .good ⟨t, "", [], d, d⟩ := by
  have hnorm : normalizeZ st = pyDropLast st ++ "+00:00" := by
    simp [normalizeZ, hz]
  have hfix : fi (normalizeZ st) = some d := by
    rw [hnorm]
    exact hfi
  have hpd : parseDT fi "created_at" (some (.str st)) = .ok (some d) := by
    simp [parseDT, hfix]
  refine ⟨hnorm, hpd, ?_, ?_⟩
  · simp only [checkRecord, htitle, hcontent, htags, hcreated, hupdated,
      Option.getD_none, Option.getD_some, allStrings, parseDT]
    rw [if_pos hlen]
  · simp only [checkRecord, htitle2, hcontent2, htags2, hcreated2, hupdated2,
      Option.getD_none, Option.getD_some, allStrings, parseDT, hfix]
    rw [if_pos hlen]

/-- Witness for C8 at a concrete line with a trailing-Z timestamp. -/
theorem import_timestamp_defaults_witness :
    normalizeZ "2024-01-01T00:00:00Z" = pyDropLast "2024-01-01T00:00:00Z" ++ "+00:00" ∧
    parseDT fi0 "created_at" (some (.str "2024-01-01T00:00:00Z")) = .ok (some 100) ∧
    checkRecord fi0 7 [("title", .str "t")] = .good ⟨"t", "", [], 7, 7⟩ ∧
    checkRecord fi0 7 [("title", .str "t"), ("created_at", .str "2024-01-01T00:00:00Z")] =
      .good ⟨"t", "", [], 100, 100⟩ :=
  import_timestamp_defaults fi0 7 100 "2024-01-01T00:00:00Z" "t"
    [("title", .str "t")]
    [("title", .str "t"), ("created_at", .str "2024-01-01T00:00:00Z")]
    (by decide) rfl rfl (by decide) rfl rfl rfl rfl rfl rfl rfl rfl rfl

end NotesApp
